import Mathlib

set_option maxRecDepth 100000

/-!
Shallow embedding of the p0f-rs client codec (src/lib.rs): the fixed
21-byte request encoder, the sequential BufferReader cursor, and the
decoding portion of P0f::query over a fixed 232-byte response buffer.

Bytes are modeled as Nat values (below 256 in every well-formed buffer)
and buffers as List Nat. Multi-byte integers use the native byte order of
the host, which this development fixes to little-endian; the encoder and
the decoder use one and the same convention, mirroring to_ne_bytes and
from_ne_bytes in the source. A Rust Duration value is modeled by its
whole-second count, and a chrono DateTime value by its Unix timestamp.
Decoded text values are modeled as the byte lists of the slot content
with trailing zero bytes trimmed; String::from_utf8_lossy is the identity
on byte content for the ASCII inputs that appear in this development.
-/

namespace P0f

/-- src/lib.rs line 13: request magic constant. -/
def REQUEST_MAGIC : Nat := 0x50304601

/-- src/lib.rs line 14: response magic constant. -/
def RESPONSE_MAGIC : Nat := 0x50304602

/-- src/lib.rs line 16: size of the wire request in bytes. -/
def REQUEST_SIZE : Nat := 21

/-- src/lib.rs line 17: size of the wire response in bytes. -/
def RESPONSE_SIZE : Nat := 232

/-- src/lib.rs line 19: usable bytes of a text slot. -/
def STR_MAX : Nat := 31

/-- src/lib.rs line 20: width of one text slot on the wire. -/
def STR_SIZE : Nat := STR_MAX + 1

/-- src/lib.rs line 22. -/
def STATUS_BADQUERY : Nat := 0x00

/-- src/lib.rs line 23. -/
def STATUS_OK : Nat := 0x10

/-- src/lib.rs line 24. -/
def STATUS_NOMATCH : Nat := 0x20

/-- src/lib.rs line 26: address family tag for IPv4 requests. -/
def ADDRESS_IPV4 : Nat := 0x04

/-- src/lib.rs line 27: address family tag for IPv6 requests. -/
def ADDRESS_IPV6 : Nat := 0x06

/-- src/lib.rs line 29. -/
def MATCH_NORMAL : Nat := 0x00

/-- src/lib.rs line 30. -/
def MATCH_FUZZY : Nat := 0x01

/-- src/lib.rs line 31. -/
def MATCH_GENERIC : Nat := 0x02

/-- src/lib.rs line 32. -/
def MATCH_FUZZY_GENERIC : Nat := 0x03

/-- u32::to_ne_bytes with the native order fixed to little-endian. -/
def u32_to_ne_bytes (n : Nat) : List Nat :=
  [n % 256, n / 256 % 256, n / 65536 % 256, n / 16777216 % 256]

/-- u32::from_ne_bytes on a 4-byte list, little-endian; the fallback arm is
never reached because read_array only ever yields lists of the requested
length. -/
def u32_from_ne_bytes : List Nat → Nat
  | [b0, b1, b2, b3] => b0 + 256 * b1 + 65536 * b2 + 16777216 * b3
  | _ => 0

/-- i16::from_ne_bytes on a 2-byte list, little-endian, two's complement. -/
def i16_from_ne_bytes : List Nat → Int
  | [b0, b1] =>
      if b0 + 256 * b1 < 32768 then ((b0 + 256 * b1 : Nat) : Int)
      else ((b0 + 256 * b1 : Nat) : Int) - 65536
  | _ => 0

/-- std::net::IpAddr restricted to what the encoder consumes: the octet
bytes of a v4 or v6 address. -/
inductive IpAddr where
  | v4 (o0 o1 o2 o3 : Nat)
  | v6 (octets : List Nat)
deriving DecidableEq

/-- Request encoding from src/lib.rs lines 62 to 75: magic, family tag,
then the address octets, an IPv4 address being right-padded with 12 zero
bytes. -/
def encode_request : IpAddr → List Nat
  | .v4 o0 o1 o2 o3 =>
      u32_to_ne_bytes REQUEST_MAGIC ++ ADDRESS_IPV4 :: ([o0, o1, o2, o3] ++ List.replicate 12 0)
  | .v6 o => u32_to_ne_bytes REQUEST_MAGIC ++ ADDRESS_IPV6 :: o

/-- BufferReader from src/lib.rs lines 326 to 334. -/
structure BufferReader where
  buffer : List Nat
  pos : Nat
deriving DecidableEq

/-- BufferReader::new, src/lib.rs line 332. -/
def BufferReader.new (b : List Nat) : BufferReader := ⟨b, 0⟩

/-- BufferReader::read_array, src/lib.rs lines 336 to 345: when pos + n
fits in the buffer, yield the slice buffer[pos..pos+n] and the advanced
reader, otherwise yield nothing (the Rust method leaves self.pos
untouched in that branch; here the caller simply keeps its reader). -/
def BufferReader.read_array (r : BufferReader) (n : Nat) :
    Option (List Nat × BufferReader) :=
  if r.pos + n ≤ r.buffer.length then
    some ((r.buffer.drop r.pos).take n, ⟨r.buffer, r.pos + n⟩)
  else
    none

/-- BufferReader::get_buffer, src/lib.rs lines 347 to 349: the unread tail. -/
def BufferReader.get_buffer (r : BufferReader) : List Nat :=
  r.buffer.drop r.pos

/-- Error enum from src/lib.rs lines 34 to 48. The io::Error variant is
transport-level and outside the decode embedding, so it carries no
payload here; InvalidData likewise never arises during decoding (the
slice-to-array conversion inside read_array cannot fail). -/
inductive Error where
  | IoFailure
  | InvalidMagic
  | BadQuery
  | TimestampOutOfRange (field : String)
  | MissingData (field : String)
  | InvalidData
deriving DecidableEq

/-- Outcome of running the decoding portion of P0f::query: a returned
value, a returned error, or a Rust panic (the unreachable macro at
src/lib.rs lines 92, 175 and 187 unwinds instead of returning). -/
inductive DResult (α : Type) where
  | ok (a : α)
  | err (e : Error)
  | panicked
deriving DecidableEq

/-- Sequencing that propagates both returned errors and panics. -/
def DResult.bind {α β : Type} (a : DResult α) (f : α → DResult β) : DResult β :=
  match a with
  | .ok x => f x
  | .err e => .err e
  | .panicked => .panicked

instance : Monad DResult where
  pure := DResult.ok
  bind := DResult.bind

/-- Modelled from the documented behavior of the chrono crate, an external
dependency that is not repository code: DateTime::from_timestamp(secs, 0)
yields a value for every second count within chrono's representable range
of roughly 262000 years on either side of the epoch and nothing outside
it. A DateTime is represented by its timestamp, and the two cutoffs are
the second counts of the extreme representable calendar dates
(-262144-01-01T00:00:00 and 262143-12-31T23:59:59 proleptic Gregorian);
only their magnitude, far beyond 2 to the 32, matters below. -/
def chrono_from_timestamp (secs : Int) : Option Int :=
  if -8334632851200 ≤ secs ∧ secs ≤ 8210298499199 then some secs else none

/-- BadSw enum, src/lib.rs lines 310 to 315. -/
inductive BadSw where
  | OsDifference
  | OutrightMismatch
deriving DecidableEq

/-- OsMatchQuality enum, src/lib.rs lines 317 to 324. -/
inductive OsMatchQuality where
  | Normal
  | Fuzzy
  | Generic
  | FuzzyGeneric
deriving DecidableEq

/-- Decoded Response record, src/lib.rs lines 289 to 308. Durations are
modeled in seconds, DateTime values by their timestamps, and the six text
fields by trimmed byte lists. -/
structure Response where
  first_seen : Int
  last_seen : Int
  total_conn : Nat
  uptime_min : Option Nat
  up_mod_days : Nat
  last_nat : Option Int
  last_chg : Option Int
  distance : Option Int
  bad_sw : Option BadSw
  os_match_q : OsMatchQuality
  os_name : Option (List Nat)
  os_flavor : Option (List Nat)
  http_name : Option (List Nat)
  http_flavor : Option (List Nat)
  link_type : Option (List Nat)
  language : Option (List Nat)
deriving DecidableEq

/-- One u32 read: response.read_array() mapped through u32::from_ne_bytes
with the missing-data error of the calling site. -/
def readU32 (r : BufferReader) (field : String) : DResult (Nat × BufferReader) :=
  match r.read_array 4 with
  | some (b, r2) => .ok (u32_from_ne_bytes b, r2)
  | none => .err (.MissingData field)

/-- One i16 read, as for the distance field. -/
def readI16 (r : BufferReader) (field : String) : DResult (Int × BufferReader) :=
  match r.read_array 2 with
  | some (b, r2) => .ok (i16_from_ne_bytes b, r2)
  | none => .err (.MissingData field)

/-- One u8 read, as for the bad_sw and os_match_q fields. -/
def readU8 (r : BufferReader) (field : String) : DResult (Nat × BufferReader) :=
  match r.read_array 1 with
  | some (b, r2) => .ok (b.headD 0, r2)
  | none => .err (.MissingData field)

/-- DateTime::from_timestamp(raw as i64, 0).ok_or(TimestampOutOfRange(field)),
the conversion applied to first_seen, last_seen, last_nat and last_chg. -/
def toTimestamp (raw : Nat) (field : String) : DResult Int :=
  match chrono_from_timestamp (raw : Int) with
  | some t => .ok t
  | none => .err (.TimestampOutOfRange field)

/-- One optional timestamp field in the style of src/lib.rs lines 136 to
158: wire value 0 means absent, any other value goes through the same
range-checked conversion as first_seen. -/
def decodeOptTimestamp (raw : Nat) (field : String) : DResult (Option Int) :=
  if raw = 0 then .ok none else do
    let t ← toTimestamp raw field
    DResult.ok (some t)

/-- The bad_sw match of src/lib.rs lines 168 to 177: 0 absent, 1 and 2
the two variants, anything else the unreachable arm, which panics. -/
def decodeBadSw (raw : Nat) : DResult (Option BadSw) :=
  if raw = 0 then .ok none else
  if raw = 1 then .ok (some BadSw.OsDifference) else
  if raw = 2 then .ok (some BadSw.OutrightMismatch) else
  .panicked

/-- The os_match_q match of src/lib.rs lines 178 to 188: the four closed
codes, anything else the unreachable arm, which panics. -/
def decodeMatchQuality (raw : Nat) : DResult OsMatchQuality :=
  if raw = MATCH_NORMAL then .ok OsMatchQuality.Normal else
  if raw = MATCH_FUZZY then .ok OsMatchQuality.Fuzzy else
  if raw = MATCH_GENERIC then .ok OsMatchQuality.Generic else
  if raw = MATCH_FUZZY_GENERIC then .ok OsMatchQuality.FuzzyGeneric else
  .panicked

/-- trim_end_matches applied to the NUL character: drop trailing zero
bytes. -/
def trimTrailingZeros (l : List Nat) : List Nat :=
  (l.reverse.dropWhile (fun b => b == 0)).reverse

/-- One text slot, src/lib.rs lines 190 to 201 and its five clones: peek
at the first unread byte through get_buffer (indexing an empty slice
would panic); on zero the field is absent and the reader is returned
unchanged, otherwise the 32-byte slot is consumed, decoded leniently and
trimmed. -/
def readTextSlot (r : BufferReader) (field : String) :
    DResult (Option (List Nat) × BufferReader) :=
  match r.get_buffer.head? with
  | none => .panicked
  | some 0 => .ok (none, r)
  | some _ =>
      match r.read_array STR_SIZE with
      | some (b, r2) => .ok (some (trimTrailingZeros b), r2)
      | none => .err (.MissingData field)

/-- The six text slots of src/lib.rs lines 190 to 266, in wire order. -/
structure TextFields where
  os_name : Option (List Nat)
  os_flavor : Option (List Nat)
  http_name : Option (List Nat)
  http_flavor : Option (List Nat)
  link_type : Option (List Nat)
  language : Option (List Nat)
deriving DecidableEq

/-- The six sequential text-slot reads of src/lib.rs lines 190 to 266. -/
def decode_texts (r : BufferReader) : DResult TextFields := do
  let (os_name, r) ← readTextSlot r "os_name"
  let (os_flavor, r) ← readTextSlot r "os_flavor"
  let (http_name, r) ← readTextSlot r "http_name"
  let (http_flavor, r) ← readTextSlot r "http_flavor"
  let (link_type, r) ← readTextSlot r "link_type"
  let (language, _r) ← readTextSlot r "language"
  DResult.ok
    { os_name := os_name
      os_flavor := os_flavor
      http_name := http_name
      http_flavor := http_flavor
      link_type := link_type
      language := language }

/-- The body of the STATUS_OK arm of P0f::query, src/lib.rs lines 95 to
285: the field-by-field reads that follow the magic and status words.
The u32 match statements of the source on disjoint literal values are
rendered as equality tests in source order. -/
def decode_fields (r : BufferReader) : DResult Response := do
  let (first_seen_raw, r) ← readU32 r "first_seen"
  let first_seen ← toTimestamp first_seen_raw "first_seen"
  let (last_seen_raw, r) ← readU32 r "last_seen"
  let last_seen ← toTimestamp last_seen_raw "last_seen"
  let (total_conn, r) ← readU32 r "total_conn"
  let (uptime_raw, r) ← readU32 r "uptime_min"
  let uptime_min := if uptime_raw = 0 then none else some (uptime_raw * 60)
  let (up_mod_raw, r) ← readU32 r "up_mod_days"
  let up_mod_days := up_mod_raw * 86400
  let (last_nat_raw, r) ← readU32 r "last_nat"
  let last_nat ← decodeOptTimestamp last_nat_raw "last_seen"
  let (last_chg_raw, r) ← readU32 r "last_chg"
  let last_chg ← decodeOptTimestamp last_chg_raw "last_chg"
  let (distance_raw, r) ← readI16 r "distance"
  let distance := if distance_raw = -1 then none else some distance_raw
  let (bad_sw_raw, r) ← readU8 r "bad_sw"
  let bad_sw ← decodeBadSw bad_sw_raw
  let (os_match_q_raw, r) ← readU8 r "os_match_q"
  let os_match_q ← decodeMatchQuality os_match_q_raw
  let t ← decode_texts r
  DResult.ok
    { first_seen := first_seen
      last_seen := last_seen
      total_conn := total_conn
      uptime_min := uptime_min
      up_mod_days := up_mod_days
      last_nat := last_nat
      last_chg := last_chg
      distance := distance
      bad_sw := bad_sw
      os_match_q := os_match_q
      os_name := t.os_name
      os_flavor := t.os_flavor
      http_name := t.http_name
      http_flavor := t.http_flavor
      link_type := t.link_type
      language := t.language }

/-- The decoding portion of P0f::query, src/lib.rs lines 80 to 286: the
interpretation of the 232 bytes delivered by read_exact, staged as the
framing checks (magic word and status dispatch) followed by the
field-by-field reads of the match arm for STATUS_OK. -/
def decode_response (buf : List Nat) : DResult (Option Response) := do
  let r := BufferReader.new buf
  let (magic, r) ← readU32 r "magic"
  if magic ≠ RESPONSE_MAGIC then DResult.err .InvalidMagic else do
  let (status, r) ← readU32 r "status"
  if status = STATUS_BADQUERY then DResult.err .BadQuery else
  if status = STATUS_NOMATCH then DResult.ok none else
  if status ≠ STATUS_OK then DResult.panicked else do
  let resp ← decode_fields r
  DResult.ok (some resp)

/-- Pad a text value to one full 32-byte wire slot. -/
def mkSlot (s : List Nat) : List Nat :=
  s ++ List.replicate (STR_SIZE - s.length) 0

/-- Assemble a 232-byte response buffer from field values, in the wire
order of src/lib.rs. -/
def mkRespBuf (status fs ls total uptime upmod lastnat lastchg : Nat)
    (dist : List Nat) (badsw matchq : Nat)
    (s1 s2 s3 s4 s5 s6 : List Nat) : List Nat :=
  u32_to_ne_bytes RESPONSE_MAGIC ++ u32_to_ne_bytes status ++
  u32_to_ne_bytes fs ++ u32_to_ne_bytes ls ++ u32_to_ne_bytes total ++
  u32_to_ne_bytes uptime ++ u32_to_ne_bytes upmod ++
  u32_to_ne_bytes lastnat ++ u32_to_ne_bytes lastchg ++
  dist ++ [badsw, matchq] ++
  mkSlot s1 ++ mkSlot s2 ++ mkSlot s3 ++ mkSlot s4 ++ mkSlot s5 ++ mkSlot s6

/-- ASCII bytes of the text "Linux 5.x". -/
def linux5x : List Nat := [76, 105, 110, 117, 120, 32, 53, 46, 120]

/-- ASCII bytes of the text "Ubuntu". -/
def ubuntu : List Nat := [85, 98, 117, 110, 116, 117]

/-- Concrete ok response whose os_name slot is absent (first byte zero)
while the os_flavor slot carries the text "Ubuntu". -/
def bufC1 : List Nat :=
  mkRespBuf STATUS_OK 1000 2000 5 0 0 0 0 [0, 0] 0 0
    [] ubuntu [] [] [] []

/-- What decode_response produces on bufC1: every text field comes out
absent, the os_flavor slot content included. -/
def respC1 : Response :=
  { first_seen := 1000, last_seen := 2000, total_conn := 5, uptime_min := none,
    up_mod_days := 0, last_nat := none, last_chg := none, distance := some 0,
    bad_sw := none, os_match_q := .Normal, os_name := none, os_flavor := none,
    http_name := none, http_flavor := none, link_type := none, language := none }

/-- Concrete ok response whose bad_sw byte is 3, outside the closed set. -/
def bufC2a : List Nat :=
  mkRespBuf STATUS_OK 0 0 0 0 0 0 0 [0, 0] 3 0 [] [] [] [] [] []

/-- Concrete ok response whose os_match_q byte is 4, outside the closed set. -/
def bufC2b : List Nat :=
  mkRespBuf STATUS_OK 0 0 0 0 0 0 0 [0, 0] 0 4 [] [] [] [] [] []

/-- The round-trip scenario buffer read literally: status ok, the two
timestamps, os_name slot holding "Linux 5.x", and every optional integer
field set to 0, the distance bytes included. -/
def bufC9lit : List Nat :=
  mkRespBuf STATUS_OK 1700000000 1700003600 0 0 0 0 0 [0, 0] 0 0
    linux5x [] [] [] [] []

/-- What decode_response produces on bufC9lit: distance comes out as
present with value 0, because only the wire value -1 marks it absent. -/
def respC9lit : Response :=
  { first_seen := 1700000000, last_seen := 1700003600, total_conn := 0,
    uptime_min := none, up_mod_days := 0, last_nat := none, last_chg := none,
    distance := some 0, bad_sw := none, os_match_q := .Normal,
    os_name := some linux5x, os_flavor := none, http_name := none,
    http_flavor := none, link_type := none, language := none }

/-- The round-trip scenario buffer with each optional field at its absent
sentinel: 0 for the u32 fields and -1 (bytes 0xFF 0xFF) for distance. -/
def bufC9am : List Nat :=
  mkRespBuf STATUS_OK 1700000000 1700003600 0 0 0 0 0 [0xFF, 0xFF] 0 0
    linux5x [] [] [] [] []

/-- The record the round-trip scenario expects. -/
def respC9am : Response :=
  { first_seen := 1700000000, last_seen := 1700003600, total_conn := 0,
    uptime_min := none, up_mod_days := 0, last_nat := none, last_chg := none,
    distance := none, bad_sw := none, os_match_q := .Normal,
    os_name := some linux5x, os_flavor := none, http_name := none,
    http_flavor := none, link_type := none, language := none }

/-- Concrete ok response whose uptime_min wire value is 120 minutes. -/
def bufC8w : List Nat :=
  mkRespBuf STATUS_OK 0 0 0 120 0 0 0 [0xFF, 0xFF] 0 0 [] [] [] [] [] []

/-- What decode_response produces on bufC8w: a 7200-second uptime. -/
def respC8w : Response :=
  { first_seen := 0, last_seen := 0, total_conn := 0,
    uptime_min := some 7200, up_mod_days := 0, last_nat := none,
    last_chg := none, distance := none, bad_sw := none,
    os_match_q := .Normal, os_name := none, os_flavor := none,
    http_name := none, http_flavor := none, link_type := none,
    language := none }

/-! Helper lemmas about the result monad and the primitive reads. -/

theorem DResult.ok_bind {α β : Type} (a : α) (f : α → DResult β) :
    (DResult.ok a >>= f) = f a := rfl

theorem DResult.bind_eq_ok {α β : Type} {a : DResult α} {f : α → DResult β} {b : β} :
    (a >>= f) = DResult.ok b ↔ ∃ x, a = DResult.ok x ∧ f x = DResult.ok b := by
  cases a <;> simp [Bind.bind, DResult.bind]

theorem readU32_ok {r : BufferReader} {f : String} {v : Nat} {r2 : BufferReader}
    (h : readU32 r f = .ok (v, r2)) :
    r.pos + 4 ≤ r.buffer.length ∧
    v = u32_from_ne_bytes ((r.buffer.drop r.pos).take 4) ∧
    r2 = ⟨r.buffer, r.pos + 4⟩ := by
  unfold readU32 BufferReader.read_array at h
  by_cases hc : r.pos + 4 ≤ r.buffer.length
  · rw [if_pos hc] at h
    simp only [DResult.ok.injEq, Prod.mk.injEq] at h
    exact ⟨hc, h.1.symm, h.2.symm⟩
  · rw [if_neg hc] at h
    simp at h

theorem readTextSlot_ok_none {r r2 : BufferReader} {f : String}
    (h : readTextSlot r f = .ok (none, r2)) :
    r2 = r ∧ r.get_buffer.head? = some 0 := by
  unfold readTextSlot at h
  cases hh : r.get_buffer.head? with
  | none => rw [hh] at h; simp at h
  | some b =>
    rw [hh] at h
    cases b with
    | zero =>
      simp only [DResult.ok.injEq, Prod.mk.injEq] at h
      exact ⟨h.2.symm, rfl⟩
    | succ n =>
      cases hra : r.read_array STR_SIZE with
      | none => rw [hra] at h; simp at h
      | some p => rw [hra] at h; simp at h

theorem readTextSlot_at_zero {r : BufferReader} (f : String)
    (h : r.get_buffer.head? = some 0) :
    readTextSlot r f = .ok (none, r) := by
  unfold readTextSlot
  rw [h]

theorem readU32_eval (r : BufferReader) (f : String) (hc : r.pos + 4 ≤ r.buffer.length) :
    readU32 r f =
      .ok (u32_from_ne_bytes ((r.buffer.drop r.pos).take 4), ⟨r.buffer, r.pos + 4⟩) := by
  unfold readU32 BufferReader.read_array
  rw [if_pos hc]

theorem readI16_ok {r : BufferReader} {f : String} {v : Int} {r2 : BufferReader}
    (h : readI16 r f = .ok (v, r2)) :
    r.pos + 2 ≤ r.buffer.length ∧ r2 = ⟨r.buffer, r.pos + 2⟩ := by
  unfold readI16 BufferReader.read_array at h
  by_cases hc : r.pos + 2 ≤ r.buffer.length
  · rw [if_pos hc] at h
    simp only [DResult.ok.injEq, Prod.mk.injEq] at h
    exact ⟨hc, h.2.symm⟩
  · rw [if_neg hc] at h
    simp at h

theorem readU8_ok {r : BufferReader} {f : String} {v : Nat} {r2 : BufferReader}
    (h : readU8 r f = .ok (v, r2)) :
    r.pos + 1 ≤ r.buffer.length ∧ r2 = ⟨r.buffer, r.pos + 1⟩ := by
  unfold readU8 BufferReader.read_array at h
  by_cases hc : r.pos + 1 ≤ r.buffer.length
  · rw [if_pos hc] at h
    simp only [DResult.ok.injEq, Prod.mk.injEq] at h
    exact ⟨hc, h.2.symm⟩
  · rw [if_neg hc] at h
    simp at h

theorem decode_response_ok_fields {buf : List Nat} {resp : Response}
    (h : decode_response buf = .ok (some resp)) :
    decode_fields ⟨buf, 8⟩ = .ok resp := by
  dsimp only [decode_response, BufferReader.new] at h
  rw [DResult.bind_eq_ok] at h
  obtain ⟨⟨magic, r1⟩, h1, h⟩ := h
  obtain ⟨-, -, hr1⟩ := readU32_ok h1
  dsimp only [] at hr1
  subst hr1
  dsimp only [] at h
  split at h
  · exact absurd h (by simp)
  rw [DResult.bind_eq_ok] at h
  obtain ⟨⟨status, r2⟩, h2, h⟩ := h
  obtain ⟨-, -, hr2⟩ := readU32_ok h2
  dsimp only [] at hr2
  subst hr2
  dsimp only [] at h
  split at h
  · exact absurd h (by simp)
  split at h
  · exact absurd h (by simp)
  split at h
  · exact absurd h (by simp)
  rw [DResult.bind_eq_ok] at h
  obtain ⟨resp2, hdf, h⟩ := h
  simp only [DResult.ok.injEq, Option.some.injEq] at h
  rw [h] at hdf
  exact hdf

/-! Claim theorems. -/

/-- C3: read_array with size n on a cursor at any reachable position
(pos never exceeds the buffer length: new starts at 0 and every advance
is guarded) returns none when fewer than n bytes remain, and otherwise
returns exactly the next n bytes, a list of length n lying inside the
buffer, with the offset advanced by n; the function is total, so it can
neither panic nor read out of bounds. -/
theorem read_array_spec (buf : List Nat) (pos n : Nat) (hpos : pos ≤ buf.length) :
    (buf.length - pos < n → BufferReader.read_array ⟨buf, pos⟩ n = none) ∧
    (n ≤ buf.length - pos →
      BufferReader.read_array ⟨buf, pos⟩ n =
        some ((buf.drop pos).take n, ⟨buf, pos + n⟩) ∧
      ((buf.drop pos).take n).length = n) := by
  constructor
  · intro h
    have hc : ¬ (pos + n ≤ buf.length) := by omega
    simp [BufferReader.read_array, hc]
  · intro h
    have hc : pos + n ≤ buf.length := by omega
    refine ⟨by simp [BufferReader.read_array, hc], ?_⟩
    simp only [List.length_take, List.length_drop]
    omega

/-- C3 witness: on the three-byte buffer, reading 2 bytes at position 1
succeeds with the final two bytes, and reading 2 bytes at position 2
fails. -/
theorem read_array_spec_witness :
    (BufferReader.read_array ⟨[1, 2, 3], 1⟩ 2 =
        some ((([1, 2, 3] : List Nat).drop 1).take 2, ⟨[1, 2, 3], 1 + 2⟩) ∧
      ((([1, 2, 3] : List Nat).drop 1).take 2).length = 2) ∧
    BufferReader.read_array ⟨[1, 2, 3], 2⟩ 2 = none :=
  ⟨(read_array_spec [1, 2, 3] 1 2 (by decide)).2 (by decide),
   (read_array_spec [1, 2, 3] 2 2 (by decide)).1 (by decide)⟩

/-- C5: for every IPv4 address the encoder yields exactly 21 bytes whose
first four bytes are the request magic in native order, whose byte at
index 4 is the family tag 4, whose bytes at indices 5 through 8 are the
address octets and whose bytes at indices 9 through 20 are zero; for
every IPv6 address it yields exactly 21 bytes with family tag 6 at
index 4 and the 16 address octets at indices 5 through 20. -/
theorem encode_request_layout :
    (∀ o0 o1 o2 o3 : Nat,
      (encode_request (.v4 o0 o1 o2 o3)).length = 21 ∧
      (encode_request (.v4 o0 o1 o2 o3)).take 4 = u32_to_ne_bytes REQUEST_MAGIC ∧
      (encode_request (.v4 o0 o1 o2 o3)).getD 4 0 = ADDRESS_IPV4 ∧
      ((encode_request (.v4 o0 o1 o2 o3)).drop 5).take 4 = [o0, o1, o2, o3] ∧
      (encode_request (.v4 o0 o1 o2 o3)).drop 9 = List.replicate 12 0) ∧
    (∀ o : List Nat, o.length = 16 →
      (encode_request (.v6 o)).length = 21 ∧
      (encode_request (.v6 o)).take 4 = u32_to_ne_bytes REQUEST_MAGIC ∧
      (encode_request (.v6 o)).getD 4 0 = ADDRESS_IPV6 ∧
      (encode_request (.v6 o)).drop 5 = o) := by
  constructor
  · intro o0 o1 o2 o3
    exact ⟨rfl, rfl, rfl, rfl, rfl⟩
  · intro o ho
    refine ⟨?_, rfl, rfl, rfl⟩
    simp [encode_request, u32_to_ne_bytes, ho]

/-- C5 witness: the layout at the concrete addresses 192.0.2.1 and
fe80::1. -/
theorem encode_request_layout_witness :
    (encode_request (.v4 192 0 2 1)).length = 21 ∧
    ((encode_request (.v4 192 0 2 1)).drop 5).take 4 = [192, 0, 2, 1] ∧
    (encode_request (.v6 [0xfe, 0x80, 0, 0, 0, 0, 0, 0, 0, 0, 0, 0, 0, 0, 0, 1])).drop 5 =
      [0xfe, 0x80, 0, 0, 0, 0, 0, 0, 0, 0, 0, 0, 0, 0, 0, 1] :=
  ⟨(encode_request_layout.1 192 0 2 1).1,
   (encode_request_layout.1 192 0 2 1).2.2.2.1,
   (encode_request_layout.2 [0xfe, 0x80, 0, 0, 0, 0, 0, 0, 0, 0, 0, 0, 0, 0, 0, 1]
      (by decide)).2.2.2⟩

/-- C4 counterexample: no 32-bit wire value makes the timestamp
conversion used for first_seen or last_seen fail, so the boundary claimed
by the specification does not exist in the code: chrono accepts every
second count up to 2 to the 32 (year 2106), far below its true cutoff
near year 262143. -/
theorem timestamp_c4_counterexample :
    ¬ ∃ v : Nat, v < 4294967296 ∧
      (toTimestamp v "first_seen" = .err (.TimestampOutOfRange "first_seen") ∨
       toTimestamp v "last_seen" = .err (.TimestampOutOfRange "last_seen")) := by
  rintro ⟨v, hv, h⟩
  have hc : chrono_from_timestamp (v : Int) = some (v : Int) := by
    unfold chrono_from_timestamp
    rw [if_pos]
    constructor <;> omega
  rcases h with h | h <;> · unfold toTimestamp at h; rw [hc] at h; simp at h

/-- C4 amended: every 32-bit seconds-since-epoch value is representable,
so the conversion applied to first_seen and last_seen succeeds, returning
the value unchanged, for every possible wire value; rejection could only
occur beyond chrono's representable range, which no 32-bit value
reaches. -/
theorem timestamp_c4_amended (v : Nat) (hv : v < 4294967296) (field : String) :
    toTimestamp v field = .ok ((v : Nat) : Int) := by
  have hc : chrono_from_timestamp (v : Int) = some (v : Int) := by
    unfold chrono_from_timestamp
    rw [if_pos]
    constructor <;> omega
  unfold toTimestamp
  rw [hc]

/-- C4 witness: the largest 32-bit value is accepted. -/
theorem timestamp_c4_amended_witness :
    toTimestamp 4294967295 "first_seen" = .ok ((4294967295 : Nat) : Int) :=
  timestamp_c4_amended 4294967295 (by decide) "first_seen"

/-- C7: for every 232-byte buffer whose leading 4 bytes do not spell the
response magic, decoding fails with InvalidMagic, an error distinct from
BadQuery, whatever the remaining 228 bytes contain; the status word is
never consulted. -/
theorem invalid_magic_c7 (buf : List Nat) (hlen : buf.length = 232)
    (hmagic : u32_from_ne_bytes (buf.take 4) ≠ RESPONSE_MAGIC) :
    decode_response buf = DResult.err Error.InvalidMagic ∧
    Error.InvalidMagic ≠ Error.BadQuery := by
  refine ⟨?_, by decide⟩
  simp only [decode_response, BufferReader.new]
  rw [readU32_eval ⟨buf, 0⟩ "magic" (by simp [hlen])]
  simp only [DResult.ok_bind, List.drop_zero]
  rw [if_pos hmagic]

/-- C7 witness: the all-zero 232-byte buffer is rejected with
InvalidMagic. -/
theorem invalid_magic_c7_witness :
    decode_response (List.replicate 232 0) = DResult.err Error.InvalidMagic ∧
    Error.InvalidMagic ≠ Error.BadQuery :=
  invalid_magic_c7 (List.replicate 232 0) (by decide) (by decide)

/-- C6: a 232-byte buffer carrying the response magic and the no-match
status code decodes to the empty result, whatever its remaining 224
bytes contain. -/
theorem nomatch_c6 (rest : List Nat) (hrest : rest.length = 224) :
    decode_response (u32_to_ne_bytes RESPONSE_MAGIC ++ u32_to_ne_bytes STATUS_NOMATCH ++ rest) =
      DResult.ok none := by
  have hbuf : u32_to_ne_bytes RESPONSE_MAGIC ++ u32_to_ne_bytes STATUS_NOMATCH ++ rest
      = 2 :: 70 :: 48 :: 80 :: 32 :: 0 :: 0 :: 0 :: rest := rfl
  rw [hbuf]
  simp only [decode_response, BufferReader.new]
  rw [readU32_eval ⟨2 :: 70 :: 48 :: 80 :: 32 :: 0 :: 0 :: 0 :: rest, 0⟩ "magic"
    (by simp only [List.length_cons]; omega)]
  rw [show (((2 : Nat) :: 70 :: 48 :: 80 :: 32 :: 0 :: 0 :: 0 :: rest).drop 0).take 4
      = [2, 70, 48, 80] from by simp]
  rw [show u32_from_ne_bytes [2, 70, 48, 80] = RESPONSE_MAGIC from by decide]
  rw [DResult.ok_bind]
  dsimp only []
  rw [if_neg (show ¬(RESPONSE_MAGIC ≠ RESPONSE_MAGIC) from by decide)]
  rw [readU32_eval ⟨2 :: 70 :: 48 :: 80 :: 32 :: 0 :: 0 :: 0 :: rest, 0 + 4⟩ "status"
    (by simp only [List.length_cons]; omega)]
  rw [show (((2 : Nat) :: 70 :: 48 :: 80 :: 32 :: 0 :: 0 :: 0 :: rest).drop (0 + 4)).take 4
      = [32, 0, 0, 0] from by simp]
  rw [show u32_from_ne_bytes [32, 0, 0, 0] = 32 from by decide]
  rw [DResult.ok_bind]
  dsimp only []
  rw [if_neg (show ¬((32 : Nat) = STATUS_BADQUERY) from by decide)]
  rw [if_pos (show (32 : Nat) = STATUS_NOMATCH from by decide)]

/-- C6 witness: a no-match frame padded with 224 bytes of the arbitrary
value 7 decodes to the empty result. -/
theorem nomatch_c6_witness :
    decode_response
      (u32_to_ne_bytes RESPONSE_MAGIC ++ u32_to_ne_bytes STATUS_NOMATCH ++
        List.replicate 224 7) = DResult.ok none :=
  nomatch_c6 (List.replicate 224 7) (by decide)

/-- C1: on the concrete response bufC1 whose os_name slot starts with a
zero byte, the slot decoder yields the absent field but hands back the
reader at the unchanged position 40 instead of 72, so the cursor does not
advance past the 32-byte slot; consequently the whole decode reads every
later slot from position 40 and returns the os_flavor field as absent
even though its slot carries the text "Ubuntu". -/
theorem absent_slot_cursor_c1 :
    readTextSlot ⟨bufC1, 40⟩ "os_name" = .ok (none, ⟨bufC1, 40⟩) ∧
    (bufC1.drop 72).take 32 = mkSlot ubuntu ∧
    decode_response bufC1 = .ok (some respC1) :=
  ⟨by decide, by decide, by decide⟩

/-- C2: on the concrete ok responses whose bad_sw byte is 3 and whose
os_match_q byte is 4, decoding hits the unreachable arm and panics
instead of returning a decode error to the caller. -/
theorem enum_out_of_range_panics_c2 :
    decode_response bufC2a = DResult.panicked ∧
    decode_response bufC2b = DResult.panicked :=
  ⟨by decide, by decide⟩

/-- C9 counterexample: decoding the scenario buffer with every optional
integer field literally set to 0 yields a record whose distance field is
present with value 0, not absent, because the absence sentinel of the
signed distance is -1, not 0. -/
theorem roundtrip_c9_counterexample :
    decode_response bufC9lit = .ok (some respC9lit) ∧
    respC9lit.distance = some 0 :=
  ⟨by decide, rfl⟩

/-- C9 amended: decoding the 232-byte response with status ok,
first_seen 1700000000, last_seen 1700003600, the os_name slot holding
"Linux 5.x" followed by zero bytes, match quality Normal and every
optional field at its absence sentinel (0 for the unsigned fields, -1
for distance) yields the record with os_name present as "Linux 5.x",
uptime_min, distance and bad_sw absent, and os_match_q Normal. -/
theorem roundtrip_c9_amended :
    decode_response bufC9am = .ok (some respC9am) ∧
    respC9am.os_name = some linux5x ∧ respC9am.uptime_min = none ∧
    respC9am.distance = none ∧ respC9am.bad_sw = none ∧
    respC9am.os_match_q = .Normal :=
  ⟨by decide, rfl, rfl, rfl, rfl, rfl⟩

theorem decode_texts_chain {r : BufferReader} {t : TextFields}
    (h : decode_texts r = .ok t) :
    (t.os_name = none → t.os_flavor = none) ∧
    (t.os_flavor = none → t.http_name = none) ∧
    (t.http_name = none → t.http_flavor = none) ∧
    (t.http_flavor = none → t.link_type = none) ∧
    (t.link_type = none → t.language = none) := by
  dsimp only [decode_texts] at h
  rw [DResult.bind_eq_ok] at h
  obtain ⟨⟨t1, r1⟩, hs1, h⟩ := h
  dsimp only [] at h
  rw [DResult.bind_eq_ok] at h
  obtain ⟨⟨t2, r2⟩, hs2, h⟩ := h
  dsimp only [] at h
  rw [DResult.bind_eq_ok] at h
  obtain ⟨⟨t3, r3⟩, hs3, h⟩ := h
  dsimp only [] at h
  rw [DResult.bind_eq_ok] at h
  obtain ⟨⟨t4, r4⟩, hs4, h⟩ := h
  dsimp only [] at h
  rw [DResult.bind_eq_ok] at h
  obtain ⟨⟨t5, r5⟩, hs5, h⟩ := h
  dsimp only [] at h
  rw [DResult.bind_eq_ok] at h
  obtain ⟨⟨t6, r6⟩, hs6, h⟩ := h
  dsimp only [] at h
  simp only [DResult.ok.injEq] at h
  subst h
  refine ⟨?_, ?_, ?_, ?_, ?_⟩ <;> intro hz <;> dsimp only [] at hz ⊢
  · subst hz
    obtain ⟨hre, hzero⟩ := readTextSlot_ok_none hs1
    subst hre
    rw [readTextSlot_at_zero "os_flavor" hzero] at hs2
    simp only [DResult.ok.injEq, Prod.mk.injEq] at hs2
    exact hs2.1.symm
  · subst hz
    obtain ⟨hre, hzero⟩ := readTextSlot_ok_none hs2
    subst hre
    rw [readTextSlot_at_zero "http_name" hzero] at hs3
    simp only [DResult.ok.injEq, Prod.mk.injEq] at hs3
    exact hs3.1.symm
  · subst hz
    obtain ⟨hre, hzero⟩ := readTextSlot_ok_none hs3
    subst hre
    rw [readTextSlot_at_zero "http_flavor" hzero] at hs4
    simp only [DResult.ok.injEq, Prod.mk.injEq] at hs4
    exact hs4.1.symm
  · subst hz
    obtain ⟨hre, hzero⟩ := readTextSlot_ok_none hs4
    subst hre
    rw [readTextSlot_at_zero "link_type" hzero] at hs5
    simp only [DResult.ok.injEq, Prod.mk.injEq] at hs5
    exact hs5.1.symm
  · subst hz
    obtain ⟨hre, hzero⟩ := readTextSlot_ok_none hs5
    subst hre
    rw [readTextSlot_at_zero "language" hzero] at hs6
    simp only [DResult.ok.injEq, Prod.mk.injEq] at hs6
    exact hs6.1.symm

theorem decode_fields_inversion {r : BufferReader} {resp : Response}
    (h : decode_fields r = .ok resp) :
    resp.uptime_min =
      (if u32_from_ne_bytes ((r.buffer.drop (r.pos + 12)).take 4) = 0 then none
       else some (u32_from_ne_bytes ((r.buffer.drop (r.pos + 12)).take 4) * 60)) ∧
    ∃ t : TextFields, decode_texts ⟨r.buffer, r.pos + 32⟩ = .ok t ∧
      resp.os_name = t.os_name ∧ resp.os_flavor = t.os_flavor ∧
      resp.http_name = t.http_name ∧ resp.http_flavor = t.http_flavor ∧
      resp.link_type = t.link_type ∧ resp.language = t.language := by
  dsimp only [decode_fields] at h
  rw [DResult.bind_eq_ok] at h
  obtain ⟨⟨fsraw, r1⟩, h1, h⟩ := h
  obtain ⟨-, -, hr1⟩ := readU32_ok h1
  subst hr1
  dsimp only [] at h
  rw [DResult.bind_eq_ok] at h
  obtain ⟨fs, -, h⟩ := h
  rw [DResult.bind_eq_ok] at h
  obtain ⟨⟨lsraw, r2⟩, h2, h⟩ := h
  obtain ⟨-, -, hr2⟩ := readU32_ok h2
  dsimp only [] at hr2
  subst hr2
  dsimp only [] at h
  rw [DResult.bind_eq_ok] at h
  obtain ⟨ls, -, h⟩ := h
  rw [DResult.bind_eq_ok] at h
  obtain ⟨⟨total, r3⟩, h3, h⟩ := h
  obtain ⟨-, -, hr3⟩ := readU32_ok h3
  dsimp only [] at hr3
  subst hr3
  dsimp only [] at h
  rw [DResult.bind_eq_ok] at h
  obtain ⟨⟨upraw, r4⟩, h4, h⟩ := h
  obtain ⟨-, hu, hr4⟩ := readU32_ok h4
  dsimp only [] at hu hr4
  subst hr4
  subst hu
  dsimp only [] at h
  rw [DResult.bind_eq_ok] at h
  obtain ⟨⟨umraw, r5⟩, h5, h⟩ := h
  obtain ⟨-, -, hr5⟩ := readU32_ok h5
  dsimp only [] at hr5
  subst hr5
  dsimp only [] at h
  rw [DResult.bind_eq_ok] at h
  obtain ⟨⟨lnraw, r6⟩, h6, h⟩ := h
  obtain ⟨-, -, hr6⟩ := readU32_ok h6
  dsimp only [] at hr6
  subst hr6
  dsimp only [] at h
  rw [DResult.bind_eq_ok] at h
  obtain ⟨lastnat, -, h⟩ := h
  rw [DResult.bind_eq_ok] at h
  obtain ⟨⟨lcraw, r7⟩, h7, h⟩ := h
  obtain ⟨-, -, hr7⟩ := readU32_ok h7
  dsimp only [] at hr7
  subst hr7
  dsimp only [] at h
  rw [DResult.bind_eq_ok] at h
  obtain ⟨lastchg, -, h⟩ := h
  rw [DResult.bind_eq_ok] at h
  obtain ⟨⟨draw, r8⟩, h8, h⟩ := h
  obtain ⟨-, hr8⟩ := readI16_ok h8
  dsimp only [] at hr8
  subst hr8
  dsimp only [] at h
  rw [DResult.bind_eq_ok] at h
  obtain ⟨⟨bsraw, r9⟩, h9, h⟩ := h
  obtain ⟨-, hr9⟩ := readU8_ok h9
  dsimp only [] at hr9
  subst hr9
  dsimp only [] at h
  rw [DResult.bind_eq_ok] at h
  obtain ⟨badsw, -, h⟩ := h
  rw [DResult.bind_eq_ok] at h
  obtain ⟨⟨mqraw, r10⟩, h10, h⟩ := h
  obtain ⟨-, hr10⟩ := readU8_ok h10
  dsimp only [] at hr10
  subst hr10
  dsimp only [] at h
  rw [DResult.bind_eq_ok] at h
  obtain ⟨matchq, -, h⟩ := h
  rw [DResult.bind_eq_ok] at h
  obtain ⟨t, ht, h⟩ := h
  simp only [DResult.ok.injEq] at h
  subst h
  have harith2 : r.pos + 4 + 4 + 4 + 4 + 4 + 4 + 4 + 2 + 1 + 1 = r.pos + 32 := by omega
  rw [harith2] at ht
  constructor
  · dsimp only []
  · exact ⟨t, ht, rfl, rfl, rfl, rfl, rfl, rfl⟩

/-- C8: for every successfully decoded response, a zero uptime_min wire
word (bytes 20 to 23) yields an absent uptime and a nonzero word n
yields a duration of exactly n times 60 seconds. -/
theorem uptime_decoding_c8 {buf : List Nat} {resp : Response}
    (h : decode_response buf = .ok (some resp)) :
    (u32_from_ne_bytes ((buf.drop 20).take 4) = 0 → resp.uptime_min = none) ∧
    (u32_from_ne_bytes ((buf.drop 20).take 4) ≠ 0 →
      resp.uptime_min = some (u32_from_ne_bytes ((buf.drop 20).take 4) * 60)) := by
  have hu := (decode_fields_inversion (decode_response_ok_fields h)).1
  dsimp only [] at hu
  rw [show (8 : Nat) + 12 = 20 from rfl] at hu
  constructor
  · intro hz
    rw [hu, if_pos hz]
  · intro hz
    rw [hu, if_neg hz]

/-- C8 witness: the concrete response carrying uptime_min 120 decodes to
an uptime of 7200 seconds, two hours. -/
theorem uptime_decoding_c8_witness :
    decode_response bufC8w = .ok (some respC8w) ∧
    respC8w.uptime_min = some 7200 := by
  have hdec : decode_response bufC8w = .ok (some respC8w) := by decide
  have h := (uptime_decoding_c8 hdec).2 (by decide)
  refine ⟨hdec, ?_⟩
  rw [h]
  decide

/-- C10: in the decoder as written, once a text slot decodes as absent
every later text slot of the same response also decodes as absent,
whatever the later slots contain, because the cursor is left on the same
zero byte; the five adjacent implications chain to cover every pair. -/
theorem absent_text_propagates_c10 {buf : List Nat} {resp : Response}
    (h : decode_response buf = .ok (some resp)) :
    (resp.os_name = none → resp.os_flavor = none) ∧
    (resp.os_flavor = none → resp.http_name = none) ∧
    (resp.http_name = none → resp.http_flavor = none) ∧
    (resp.http_flavor = none → resp.link_type = none) ∧
    (resp.link_type = none → resp.language = none) := by
  obtain ⟨-, t, ht, e1, e2, e3, e4, e5, e6⟩ :=
    decode_fields_inversion (decode_response_ok_fields h)
  rw [e1, e2, e3, e4, e5, e6]
  exact decode_texts_chain ht

/-- C10 witness: on bufC1 the absent os_name slot drags every later text
field to absent, the os_flavor slot that carries "Ubuntu" included. -/
theorem absent_text_propagates_c10_witness :
    respC1.os_name = none ∧ respC1.os_flavor = none ∧ respC1.http_name = none ∧
    respC1.http_flavor = none ∧ respC1.link_type = none ∧ respC1.language = none := by
  have h := absent_text_propagates_c10
    (show decode_response bufC1 = .ok (some respC1) from by decide)
  have h1 : respC1.os_name = none := rfl
  have h2 := h.1 h1
  have h3 := h.2.1 h2
  have h4 := h.2.2.1 h3
  have h5 := h.2.2.2.1 h4
  have h6 := h.2.2.2.2 h5
  exact ⟨h1, h2, h3, h4, h5, h6⟩

end P0f
